import Mathlib

/-!
Verification of the FMI (Finnish Meteorological Institute) Home Assistant
integration: a shallow embedding in Lean 4 of the weather entity
(`homeassistant/components/fmi/weather.py`) and the configuration flow
(`homeassistant/components/fmi/config_flow.py`), together with theorems
settling the specification claims about them.

Numeric provider fields are modelled as rationals (`ℚ`); optional fields as
`Option ℚ`; Python dictionaries with string keys as insertion-ordered
association lists; exceptions as `Except`.  The two outbound network calls of
the integration are modelled by explicit call-outcome functions passed as
arguments, together with a call counter where a claim is about the number of
calls made.
-/

namespace FMI

/-! ## Data model

`fmi_weather_client` wraps every numeric observation in an object carrying a
`value`; fields may be `None`.  We model each observation field directly as
`Option ℚ` (the `.value` projection being the carried rational). -/

/-- Current-weather observation bundle (`fmi_weather_client.models.WeatherData`):
the fields of `weather.data` accessed by `weather.py`, each optionally present. -/
structure WeatherData where
  temperature : Option ℚ
  pressure : Option ℚ
  humidity : Option ℚ
  wind_speed : Option ℚ
  wind_direction : Option ℚ
  symbol : Option ℚ
  wind_u_component : Option ℚ
  wind_v_component : Option ℚ
  wind_max : Option ℚ
  wind_gust : Option ℚ
  cloud_cover : Option ℚ
  cloud_low_cover : Option ℚ
  cloud_mid_cover : Option ℚ
  cloud_high_cover : Option ℚ
  radiation_short_wave_acc : Option ℚ
  radiation_short_wave_surface_net_acc : Option ℚ
  radiation_long_wave_acc : Option ℚ
  radiation_long_wave_surface_net_acc : Option ℚ
  radiation_short_wave_diff_surface_acc : Option ℚ
  geopotential_height : Option ℚ
  land_sea_mask : Option ℚ
  deriving Repr, DecidableEq

/-- A fully absent observation bundle, used as a base for concrete snapshots. -/
def emptyWeatherData : WeatherData :=
  ⟨none, none, none, none, none, none, none, none, none, none, none,
   none, none, none, none, none, none, none, none, none, none⟩

/-- Calendar timestamp of a forecast point (`datetime` without microseconds). -/
structure DateTime where
  year : ℕ
  month : ℕ
  day : ℕ
  hour : ℕ
  minute : ℕ
  second : ℕ
  deriving Repr, DecidableEq

/-- Zero-pad a number to two digits, as Python timestamp formatting does. -/
def pad2 (n : ℕ) : String :=
  if n < 10 then "0" ++ toString n else toString n

/-- Zero-pad a year to four digits, as Python timestamp formatting does. -/
def pad4 (n : ℕ) : String :=
  if n < 10 then "000" ++ toString n
  else if n < 100 then "00" ++ toString n
  else if n < 1000 then "0" ++ toString n
  else toString n

/-- Python's `datetime.isoformat(sep)` (microseconds absent): the ISO-8601
date, the separator, then the ISO-8601 time. -/
def isoformat (sep : String) (t : DateTime) : String :=
  pad4 t.year ++ "-" ++ pad2 t.month ++ "-" ++ pad2 t.day ++ sep ++
    pad2 t.hour ++ ":" ++ pad2 t.minute ++ ":" ++ pad2 t.second

/-- One forecast point as consumed by `FMIWeather.forecast`: a timestamp, a
temperature observation and a symbol observation (the latter two accessed
through `.value` without a `None` guard, so modelled as plain rationals). -/
structure ForecastItem where
  time : DateTime
  temperature : ℚ
  symbol : ℚ
  deriving Repr, DecidableEq

/-- Forecast bundle (`fmi_weather_client.models.Forecast`): its `forecasts`
list, optionally present. -/
structure ForecastBundle where
  forecasts : Option (List ForecastItem)
  deriving Repr, DecidableEq

/-- Current weather bundle (`fmi_weather_client.models.Weather`): its `data`
observation record as accessed by the entity properties. -/
structure Weather where
  data : WeatherData
  deriving Repr, DecidableEq

/-- The `FMIResponse` class defined inside `async_setup_entry`: the fetched
weather bundled with the fetched forecast. -/
structure FMIResponse where
  weather : Weather
  forecast : ForecastBundle
  deriving Repr, DecidableEq

/-! ## Condition mapping (`weather.py`, `_symbol_to_condition`) -/

/-- Embeds `_symbol_to_condition(symbol)`: the static lookup from the provider's
numeric symbol code (a Python float, compared numerically against integer
literals) to the fixed condition vocabulary; unmapped codes give `None`. -/
def symbol_to_condition (symbol : ℚ) : Option String :=
  if symbol = 1 then some "sunny"
  else if symbol = 91 ∨ symbol = 92 then some "fog"
  else if symbol = 21 ∨ symbol = 22 ∨ symbol = 31 ∨ symbol = 32 then some "rainy"
  else if symbol = 23 ∨ symbol = 33 then some "pouring"
  else if symbol = 71 ∨ symbol = 72 ∨ symbol = 73 ∨ symbol = 81 ∨ symbol = 82 ∨ symbol = 83 then
    some "snowy-rainy"
  else if symbol = 41 ∨ symbol = 42 ∨ symbol = 43 ∨ symbol = 51 ∨ symbol = 52 ∨ symbol = 53 then
    some "snowy"
  else if symbol = 61 ∨ symbol = 62 ∨ symbol = 63 ∨ symbol = 64 then some "lightning"
  else if symbol = 2 then some "partlycloudy"
  else if symbol = 3 then some "cloudy"
  else none

/-- The 27 symbol codes that `_symbol_to_condition` maps to a condition. -/
def mappedSymbolCodes : List ℚ :=
  [1, 2, 3, 21, 22, 23, 31, 32, 33, 41, 42, 43, 51, 52, 53,
   61, 62, 63, 64, 71, 72, 73, 81, 82, 83, 91, 92]

/-! ## Entity properties (`weather.py`, class `FMIWeather`) -/

/-- Python's `round(x, 0)` on exact values: round half to even (banker's
rounding), computed on the reduced numerator and denominator.  `f` is the
floor of `x` and `r2` is twice the numerator of the fractional part `x - f`
over the denominator, so `r2 < den` means the fraction is below one half. -/
def roundHalfToEven (x : ℚ) : ℤ :=
  let f : ℤ := Int.fdiv x.num x.den
  let r2 : ℤ := 2 * (x.num - f * (x.den : ℤ))
  if r2 < (x.den : ℤ) then f
  else if (x.den : ℤ) < r2 then f + 1
  else if f % 2 = 0 then f else f + 1

/-- Round to one decimal place, Python-`round` style. -/
def pyRound1 (x : ℚ) : ℚ :=
  (roundHalfToEven (x * 10) : ℚ) / 10

/-- Embeds `FMIWeather.wind_speed`: the snapshot's wind speed (m/s) converted to
km/h by multiplying with 3.6 and rounding to one decimal; `None` passthrough. -/
def wind_speed_prop (wd : WeatherData) : Option ℚ :=
  match wd.wind_speed with
  | some v => some (pyRound1 (v * (36 / 10)))
  | none => none

/-- One rendered forecast dict, as built in the loop body of
`FMIWeather.forecast`. -/
structure ForecastRow where
  datetime : String
  temperature : ℚ
  condition : Option String
  deriving Repr, DecidableEq

/-- Embeds `FMIWeather.forecast`: if the forecast list is present, render each point
(in order, by appending to a growing list) as a dict of ISO-8601 `T`-separated
timestamp, temperature value and mapped condition; otherwise `None`. -/
def forecast_prop (forecasts : Option (List ForecastItem)) : Option (List ForecastRow) :=
  match forecasts with
  | some fs =>
      some (fs.foldl
        (fun acc f =>
          acc ++ [{ datetime := isoformat "T" f.time
                    temperature := f.temperature
                    condition := symbol_to_condition f.symbol }])
        [])
  | none => none

/-- The rendering of a single forecast point used to state claims about
`forecast_prop`. -/
def renderForecast (f : ForecastItem) : ForecastRow :=
  { datetime := isoformat "T" f.time
    temperature := f.temperature
    condition := symbol_to_condition f.symbol }

/-- Coordinator state visible to the entity: whether the most recent refresh
attempt succeeded (`DataUpdateCoordinator.last_update_success`). -/
structure Coordinator where
  last_update_success : Bool
  deriving Repr, DecidableEq

/-- Embeds `FMIWeather.available`: the coordinator's last-update-success flag. -/
def available (c : Coordinator) : Bool :=
  c.last_update_success

/-- Embeds `FMIWeather.should_poll`: always `False`, the coordinator drives updates. -/
def should_poll : Bool :=
  false

/-- Embeds `FMIWeather.unique_id` (the f-string joining latitude and
longitude with a comma and a space), with the
host language's default float formatting abstracted as `formatFloat`. -/
def unique_id (formatFloat : ℚ → String) (latitude longitude : ℚ) : String :=
  formatFloat latitude ++ ", " ++ formatFloat longitude

/-- Append a `(key, field value)` pair when the optional field is present,
as one `if ... is not None` block of `device_state_attributes` does. -/
def addOpt (attrs : List (String × ℚ)) (key : String) (field : Option ℚ) :
    List (String × ℚ) :=
  match field with
  | some v => attrs ++ [(key, v)]
  | none => attrs

/-- The blocks of `device_state_attributes` after the
`radiation_short_wave_surface_net_acc` block. -/
def deviceAttributesTail (wd : WeatherData) (attrs : List (String × ℚ)) :
    List (String × ℚ) :=
  let a := addOpt attrs "radiation_long_wave_acc" wd.radiation_long_wave_acc
  let a := addOpt a "radiation_long_wave_surface_net_acc" wd.radiation_long_wave_surface_net_acc
  let a := addOpt a "radiation_short_wave_diff_surface_acc" wd.radiation_short_wave_diff_surface_acc
  let a := addOpt a "geopotential_height" wd.geopotential_height
  addOpt a "land_sea_mask" wd.land_sea_mask

/-- Embeds `FMIWeather.device_state_attributes` on a present weather bundle.  The
source guards the `radiation_short_wave_surface_net_acc` entry on
`radiation_short_wave_acc` being present, then reads
`radiation_short_wave_surface_net_acc.value` without its own `None` check;
reading `.value` of an absent field raises `AttributeError`, modelled as
`Except.error`. -/
def device_state_attributes (wd : WeatherData) : Except String (List (String × ℚ)) :=
  let a := addOpt [] "wind_u_component" wd.wind_u_component
  let a := addOpt a "wind_v_component" wd.wind_v_component
  let a := addOpt a "wind_max" wd.wind_max
  let a := addOpt a "wind_gust" wd.wind_gust
  let a := addOpt a "symbol" wd.symbol
  let a := addOpt a "cloud_cover" wd.cloud_cover
  let a := addOpt a "cloud_low_cover" wd.cloud_low_cover
  let a := addOpt a "cloud_mid_cover" wd.cloud_mid_cover
  let a := addOpt a "cloud_high_cover" wd.cloud_high_cover
  let a := addOpt a "radiation_short_wave_acc" wd.radiation_short_wave_acc
  if wd.radiation_short_wave_acc.isSome then
    match wd.radiation_short_wave_surface_net_acc with
    | none => Except.error "AttributeError"
    | some v =>
        Except.ok (deviceAttributesTail wd (a ++ [("radiation_short_wave_surface_net_acc", v)]))
  else
    Except.ok (deviceAttributesTail wd a)

/-! ## Errors, logging and the update method (`weather.py`, `async_update_data`) -/

/-- The two error classes of `fmi_weather_client.errors` caught by the
integration: `ClientError` (status code, message) and `ServerError`
(status code, body). -/
inductive FmiError where
  | clientError (status_code : ℤ) (message : String)
  | serverError (status_code : ℤ) (body : String)
  deriving Repr, DecidableEq

/-- The `UpdateFailed` signal raised to the coordinator. -/
inductive UpdateFailed where
  | updateFailed
  deriving Repr, DecidableEq

/-- One warning log record: the fixed message text, the error's status code,
and the error's message (for `ClientError`) or body (for `ServerError`). -/
structure LogEntry where
  text : String
  status : ℤ
  message : String
  deriving Repr, DecidableEq

/-- The log record written by the `except` clause handling the given error. -/
def logOf : FmiError → LogEntry
  | .clientError st msg => ⟨"Unable to fetch data from FMI: Client Error", st, msg⟩
  | .serverError st body => ⟨"Unable to fetch data from FMI: Server Error", st, body⟩

/-- Embeds `async_update_data`: fetch the current weather, then the 8-step forecast,
for the configured coordinates; bundle them into an `FMIResponse`.  A
`ClientError` or `ServerError` from either call is logged and collapsed into
`UpdateFailed`.  The provider calls are the explicit `fetchWeather` and
`fetchForecast` arguments; the log records produced are returned alongside. -/
def async_update_data
    (fetchWeather : ℚ → ℚ → Except FmiError Weather)
    (fetchForecast : ℚ → ℚ → ℕ → Except FmiError ForecastBundle)
    (lat lon : ℚ) : Except UpdateFailed FMIResponse × List LogEntry :=
  match fetchWeather lat lon with
  | .error err => (.error .updateFailed, [logOf err])
  | .ok weather =>
      match fetchForecast lat lon 8 with
      | .error err => (.error .updateFailed, [logOf err])
      | .ok forecast => (.ok ⟨weather, forecast⟩, [])

/-! ## Configuration flow (`config_flow.py`, class `FMIConfigFlow`) -/

/-- The flow's `self._errors` dictionary: an insertion-ordered association
list from form field keys to error codes. -/
abbrev Errors := List (String × String)

/-- Python dict assignment `errors[key] = val`: overwrite in place when the
key exists, append otherwise. -/
def setError (errs : Errors) (key val : String) : Errors :=
  if errs.any (fun p => p.1 = key) then
    errs.map (fun p => if p.1 = key then (key, val) else p)
  else
    errs ++ [(key, val)]

/-- Whether the errors dictionary holds the given key. -/
def hasErrorKey (errs : Errors) (key : String) : Bool :=
  errs.any (fun p => p.1 = key)

/-- Embeds `FMIConfigFlow.is_name_available`: no already-configured entry's title
slugifies equal to the slugified submitted name. -/
def is_name_available (slugify : String → String) (existingTitles : List String)
    (name : String) : Bool :=
  existingTitles.all (fun title => !(slugify title == slugify name))

/-- Embeds `FMIConfigFlow.async_is_valid_location`: one call to the weather provider;
`True` on success, `False` when the call raises `ClientError` or
`ServerError`.  The provider is the outcome stream `oracle` indexed by the
running call counter, which the single call advances by one. -/
def async_is_valid_location (oracle : ℕ → Except FmiError Unit) (calls : ℕ) :
    Bool × ℕ :=
  match oracle calls with
  | .ok _ => (true, calls + 1)
  | .error _ => (false, calls + 1)

/-- A user submission of the configuration form. -/
structure UserInput where
  name : String
  latitude : ℚ
  longitude : ℚ
  deriving Repr, DecidableEq

/-- The outcome of one flow step: either a created configuration entry, or a
re-rendered form carrying default field values and the error annotations. -/
inductive FlowResult where
  | create_entry (title : String) (data : UserInput)
  | show_form (nameDefault : String) (latDefault lonDefault : ℚ) (errors : Errors)
  deriving Repr, DecidableEq

/-- The flow's fixed collaborators: the slugify normalizer, the titles of the
already-configured entries, the provider-call outcome stream, and the form's
initial defaults (the default name constant and the host's home coordinates). -/
structure FlowEnv where
  slugify : String → String
  existingTitles : List String
  oracle : ℕ → Except FmiError Unit
  defaultName : String
  hassLatitude : ℚ
  hassLongitude : ℚ

/-- Embeds `FMIConfigFlow.async_step_user`: with no input, render the form with the
host defaults and the current errors.  With a submission, validate the name
against existing entries and the coordinates against the provider (one call);
on both valid create the entry titled by the submitted name; otherwise record
`name_exists` under `"name"` and/or `invalid_location` under `"base"` in the
persistent errors dictionary and re-render the form with the submitted values
as defaults.  Returns the updated errors dictionary, the updated call counter
and the step result. -/
def async_step_user (env : FlowEnv) (errors : Errors) (calls : ℕ)
    (userInput : Option UserInput) : Errors × ℕ × FlowResult :=
  match userInput with
  | none =>
      (errors, calls,
        .show_form env.defaultName env.hassLatitude env.hassLongitude errors)
  | some u =>
      let is_name_valid := is_name_available env.slugify env.existingTitles u.name
      let vloc := async_is_valid_location env.oracle calls
      if is_name_valid && vloc.1 then
        (errors, vloc.2, .create_entry u.name u)
      else
        let errors1 := if !is_name_valid then setError errors "name" "name_exists" else errors
        let errors2 := if !vloc.1 then setError errors1 "base" "invalid_location" else errors1
        (errors2, vloc.2, .show_form u.name u.latitude u.longitude errors2)

/-- A whole flow instance: run `async_step_user` over a sequence of step
inputs, threading the errors dictionary and call counter, collecting each
step's result. -/
def run_flow (env : FlowEnv) (errors : Errors) (calls : ℕ) :
    List (Option UserInput) → List FlowResult × Errors × ℕ
  | [] => ([], errors, calls)
  | input :: rest =>
      let step := async_step_user env errors calls input
      let next := run_flow env step.1 step.2.1 rest
      (step.2.2 :: next.1, next.2)

/-- A concrete flow environment used to instantiate theorems with hypotheses:
one existing entry titled "Home", identity slugify, a provider that always
fails with a client error. -/
def sampleEnv : FlowEnv where
  slugify := fun s => s
  existingTitles := ["Home"]
  oracle := fun _ => .error (.clientError 400 "Bad Request")
  defaultName := "FMI"
  hassLatitude := 60
  hassLongitude := 25

end FMI

open FMI

/-- Claim C1: for every numeric symbol code, the condition mapping returns
exactly "sunny" for 1, "fog" for 91/92, "rainy" for 21/22/31/32, "pouring"
for 23/33, "snowy-rainy" for 71/72/73/81/82/83, "snowy" for 41/42/43/51/52/53,
"lightning" for 61/62/63/64, "partlycloudy" for 2, "cloudy" for 3, and no
condition for every other code. -/
theorem C1_symbol_to_condition (s : ℚ) :
    (s = 1 → symbol_to_condition s = some "sunny") ∧
    (s = 91 ∨ s = 92 → symbol_to_condition s = some "fog") ∧
    (s = 21 ∨ s = 22 ∨ s = 31 ∨ s = 32 → symbol_to_condition s = some "rainy") ∧
    (s = 23 ∨ s = 33 → symbol_to_condition s = some "pouring") ∧
    (s = 71 ∨ s = 72 ∨ s = 73 ∨ s = 81 ∨ s = 82 ∨ s = 83 →
      symbol_to_condition s = some "snowy-rainy") ∧
    (s = 41 ∨ s = 42 ∨ s = 43 ∨ s = 51 ∨ s = 52 ∨ s = 53 →
      symbol_to_condition s = some "snowy") ∧
    (s = 61 ∨ s = 62 ∨ s = 63 ∨ s = 64 → symbol_to_condition s = some "lightning") ∧
    (s = 2 → symbol_to_condition s = some "partlycloudy") ∧
    (s = 3 → symbol_to_condition s = some "cloudy") ∧
    (s ∉ mappedSymbolCodes → symbol_to_condition s = none) := by
  refine ⟨?_, ?_, ?_, ?_, ?_, ?_, ?_, ?_, ?_, ?_⟩ <;> intro h
  · subst h; decide
  · rcases h with h | h <;> subst h <;> decide
  · rcases h with h | h | h | h <;> subst h <;> decide
  · rcases h with h | h <;> subst h <;> decide
  · rcases h with h | h | h | h | h | h <;> subst h <;> decide
  · rcases h with h | h | h | h | h | h <;> subst h <;> decide
  · rcases h with h | h | h | h <;> subst h <;> decide
  · subst h; decide
  · subst h; decide
  · simp only [mappedSymbolCodes, List.mem_cons, List.not_mem_nil, or_false] at h
    push_neg at h
    obtain ⟨h1, h2, h3, h4, h5, h6, h7, h8, h9, h10, h11, h12, h13, h14,
      h15, h16, h17, h18, h19, h20, h21, h22, h23, h24, h25, h26, h27⟩ := h
    simp [symbol_to_condition, h1, h2, h3, h4, h5, h6, h7, h8, h9, h10, h11, h12,
      h13, h14, h15, h16, h17, h18, h19, h20, h21, h22, h23, h24, h25, h26, h27]

/-- Witness for C1: the theorem applied at concrete codes 92 (mapped to "fog")
and 4 (unmapped, yielding no condition). -/
theorem C1_symbol_to_condition_witness :
    symbol_to_condition 92 = some "fog" ∧ symbol_to_condition 4 = none :=
  ⟨(C1_symbol_to_condition 92).2.1 (Or.inr rfl),
   (C1_symbol_to_condition 4).2.2.2.2.2.2.2.2.2 (by decide)⟩

/-- Claim C2 (code bug): the source guards the
`radiation_short_wave_surface_net_acc` attribute on the presence of
`radiation_short_wave_acc` instead of the field itself.  First conjunct: with
`radiation_short_wave_acc` present but `radiation_short_wave_surface_net_acc`
absent, rendering the attributes raises `AttributeError` instead of omitting
the key.  Second conjunct: with only `radiation_short_wave_surface_net_acc`
present, its key is omitted although the field is present. -/
theorem C2_radiation_guard_bug :
    device_state_attributes
        {emptyWeatherData with radiation_short_wave_acc := some 1} =
      Except.error "AttributeError" ∧
    device_state_attributes
        {emptyWeatherData with radiation_short_wave_surface_net_acc := some 2} =
      Except.ok [] :=
  ⟨rfl, rfl⟩

/-- A left fold that appends one rendered element per step is the map of the
rendering over the list, appended to the accumulator. -/
theorem foldl_append_eq_map {α β : Type} (g : α → β) (l : List α) :
    ∀ init : List β, l.foldl (fun acc x => acc ++ [g x]) init = init ++ l.map g := by
  induction l with
  | nil => intro init; simp
  | cons x xs ih =>
      intro init
      simp only [List.foldl_cons, List.map_cons, ih, List.append_assoc,
        List.singleton_append]

/-- Claim C3: for every present forecast list of up to 8 points, the forecast
property returns a list of the same length in the same order, each point
rendered as ISO-8601 `T`-separated timestamp, temperature and mapped
condition; for an absent forecast list it returns `None`. -/
theorem C3_forecast (fs : List ForecastItem) (_h8 : fs.length ≤ 8) :
    forecast_prop (some fs) = some (fs.map renderForecast) ∧
    (fs.map renderForecast).length = fs.length ∧
    (∀ i (hi : i < fs.length) (hi2 : i < (fs.map renderForecast).length),
      (fs.map renderForecast).get ⟨i, hi2⟩ = renderForecast (fs.get ⟨i, hi⟩)) ∧
    forecast_prop none = none := by
  refine ⟨?_, by simp, ?_, rfl⟩
  · show some (fs.foldl (fun acc f => acc ++ [renderForecast f]) []) =
      some (fs.map renderForecast)
    rw [foldl_append_eq_map]
    simp
  · intro i hi hi2
    simp [List.get_eq_getElem, List.getElem_map]

/-- Witness for C3: the theorem applied to the one-point forecast list with
symbol code 1 at noon of 2020-01-01, its length hypothesis discharged. -/
theorem C3_forecast_witness :
    forecast_prop (some [⟨⟨2020, 1, 1, 12, 0, 0⟩, 5, 1⟩]) =
      some ([⟨⟨2020, 1, 1, 12, 0, 0⟩, 5, 1⟩].map renderForecast) ∧
    ([(⟨⟨2020, 1, 1, 12, 0, 0⟩, 5, 1⟩ : ForecastItem)].map renderForecast).length =
      [(⟨⟨2020, 1, 1, 12, 0, 0⟩, 5, 1⟩ : ForecastItem)].length ∧
    (∀ i (hi : i < [(⟨⟨2020, 1, 1, 12, 0, 0⟩, 5, 1⟩ : ForecastItem)].length)
      (hi2 : i < ([(⟨⟨2020, 1, 1, 12, 0, 0⟩, 5, 1⟩ : ForecastItem)].map renderForecast).length),
      ([(⟨⟨2020, 1, 1, 12, 0, 0⟩, 5, 1⟩ : ForecastItem)].map renderForecast).get ⟨i, hi2⟩ =
        renderForecast ([(⟨⟨2020, 1, 1, 12, 0, 0⟩, 5, 1⟩ : ForecastItem)].get ⟨i, hi⟩)) ∧
    forecast_prop none = none :=
  C3_forecast [⟨⟨2020, 1, 1, 12, 0, 0⟩, 5, 1⟩] (by decide)

/-- Rounding an integer-valued rational half-to-even returns that integer. -/
theorem roundHalfToEven_intCast (n : ℤ) : roundHalfToEven ((n : ℚ)) = n := by
  unfold roundHalfToEven
  simp [Rat.num_intCast, Rat.den_intCast]

/-- Claim C4: a present wind speed v (m/s) is exposed as v × 3.6 rounded to
one decimal place — concretely, 2.0 m/s is exposed as 7.2 km/h — and an
absent wind speed is exposed as `None`. -/
theorem C4_wind_speed (wd : WeatherData) :
    (∀ v, wd.wind_speed = some v →
      wind_speed_prop wd = some (pyRound1 (v * (36 / 10)))) ∧
    (wd.wind_speed = none → wind_speed_prop wd = none) ∧
    wind_speed_prop {emptyWeatherData with wind_speed := some 2} = some (36 / 5) := by
  refine ⟨?_, ?_, ?_⟩
  · intro v hv
    simp [wind_speed_prop, hv]
  · intro hv
    simp [wind_speed_prop, hv]
  · show some (pyRound1 (2 * (36 / 10))) = some (36 / 5)
    have h72 : ((2 : ℚ) * (36 / 10) * 10) = ((72 : ℤ) : ℚ) := by norm_num
    unfold pyRound1
    rw [h72, roundHalfToEven_intCast]
    norm_num

/-- Witness for C4: the theorem applied to a snapshot with wind speed 2 m/s,
its presence hypothesis discharged. -/
theorem C4_wind_speed_witness :
    wind_speed_prop {emptyWeatherData with wind_speed := some 2} =
      some (pyRound1 (2 * (36 / 10))) :=
  (C4_wind_speed {emptyWeatherData with wind_speed := some 2}).1 2 rfl

/-- Claim C7: the entity's availability equals the coordinator's
last-update-success flag — in particular it is false whenever the most recent
refresh failed — and the entity never polls on its own. -/
theorem C7_available_should_poll :
    (∀ c : Coordinator, available c = c.last_update_success) ∧
    (∀ c : Coordinator, c.last_update_success = false → available c = false) ∧
    should_poll = false :=
  ⟨fun _ => rfl, fun _ h => h, rfl⟩

/-- Witness for C7: the theorem applied to a coordinator whose last refresh
failed, the failure hypothesis discharged. -/
theorem C7_available_should_poll_witness : available ⟨false⟩ = false :=
  C7_available_should_poll.2.1 ⟨false⟩ rfl

/-- Claim C8: when either provider call fails with a client or server error,
the update method yields exactly the `UpdateFailed` signal (never the raw
error) together with one log record carrying the error's status code and
message/body; on success it returns the weather bundled with the 8-step
forecast. -/
theorem C8_update_data (fw : ℚ → ℚ → Except FmiError Weather)
    (ff : ℚ → ℚ → ℕ → Except FmiError ForecastBundle) (lat lon : ℚ) :
    (∀ e, fw lat lon = .error e →
      async_update_data fw ff lat lon = (.error .updateFailed, [logOf e])) ∧
    (∀ w e, fw lat lon = .ok w → ff lat lon 8 = .error e →
      async_update_data fw ff lat lon = (.error .updateFailed, [logOf e])) ∧
    (∀ w f, fw lat lon = .ok w → ff lat lon 8 = .ok f →
      async_update_data fw ff lat lon = (.ok ⟨w, f⟩, [])) := by
  refine ⟨?_, ?_, ?_⟩ <;> intros <;> simp only [async_update_data, *]

/-- Witness for C8: the theorem applied to a provider whose weather call fails
with a client error (status 404), the failure hypothesis discharged. -/
theorem C8_update_data_witness :
    async_update_data (fun _ _ => .error (.clientError 404 "not found"))
        (fun _ _ _ => .ok ⟨none⟩) 60 25 =
      (.error .updateFailed, [logOf (.clientError 404 "not found")]) :=
  (C8_update_data (fun _ _ => .error (.clientError 404 "not found"))
    (fun _ _ _ => .ok ⟨none⟩) 60 25).1 (.clientError 404 "not found") rfl

/-- Claim C9: the weather entity's unique identifier is the latitude's
formatting, a comma, a space, then the longitude's formatting, for any float
formatting and any configured coordinates. -/
theorem C9_unique_id (formatFloat : ℚ → String) (lat lon : ℚ) :
    unique_id formatFloat lat lon = formatFloat lat ++ ", " ++ formatFloat lon :=
  rfl

/-- Setting a key stores that key-value pair in the errors dictionary. -/
theorem mem_setError_self (errs : Errors) (key val : String) :
    (key, val) ∈ setError errs key val := by
  unfold setError
  split
  · next h =>
      simp only [List.any_eq_true, decide_eq_true_eq] at h
      obtain ⟨p, hp, hpk⟩ := h
      exact List.mem_map.mpr ⟨p, hp, by rw [if_pos hpk]⟩
  · next h => simp

/-- Setting one key preserves every pair stored under a different key. -/
theorem mem_setError_of_ne (errs : Errors) (k v k2 v2 : String) (hne : k ≠ k2)
    (h : (k, v) ∈ errs) : (k, v) ∈ setError errs k2 v2 := by
  unfold setError
  split
  · exact List.mem_map.mpr ⟨(k, v), h, by simp [hne]⟩
  · exact List.mem_append_left _ h

/-- Setting a key makes it present in the errors dictionary. -/
theorem hasErrorKey_setError_self (errs : Errors) (key val : String) :
    hasErrorKey (setError errs key val) key = true := by
  unfold hasErrorKey
  simp only [List.any_eq_true, decide_eq_true_eq]
  exact ⟨(key, val), mem_setError_self errs key val, rfl⟩

/-- Setting any key preserves the presence of every key already stored. -/
theorem hasErrorKey_setError_mono (errs : Errors) (k k2 v2 : String)
    (h : hasErrorKey errs k = true) :
    hasErrorKey (setError errs k2 v2) k = true := by
  unfold hasErrorKey at h ⊢
  simp only [List.any_eq_true, decide_eq_true_eq] at h ⊢
  obtain ⟨p, hp, hpk⟩ := h
  unfold setError
  split
  · by_cases hk2 : p.1 = k2
    · exact ⟨(k2, v2), List.mem_map.mpr ⟨p, hp, by rw [if_pos hk2]⟩, by
        rw [← hk2, hpk]⟩
    · exact ⟨p, List.mem_map.mpr ⟨p, hp, by rw [if_neg hk2]⟩, hpk⟩
  · exact ⟨p, List.mem_append_left _ hp, hpk⟩

/-- The name check fails exactly on a slugify collision with an existing
entry's title. -/
theorem is_name_available_eq_false (slug : String → String) (titles : List String)
    (name : String) (h : ∃ t ∈ titles, slug t = slug name) :
    is_name_available slug titles name = false := by
  obtain ⟨t, ht, hslug⟩ := h
  unfold is_name_available
  rw [List.all_eq_false]
  exact ⟨t, ht, by simp [hslug]⟩

/-- Claim C5: submitting a name whose slugification collides with an existing
entry's slugified title records the `name_exists` error under the name field,
re-renders the form with the submitted values as defaults, and creates no
configuration entry. -/
theorem C5_name_exists (env : FlowEnv) (errors : Errors) (calls : ℕ) (u : UserInput)
    (h : ∃ t ∈ env.existingTitles, env.slugify t = env.slugify u.name) :
    ("name", "name_exists") ∈ (async_step_user env errors calls (some u)).1 ∧
    (async_step_user env errors calls (some u)).2.2 =
      FlowResult.show_form u.name u.latitude u.longitude
        (async_step_user env errors calls (some u)).1 ∧
    ∀ t d, (async_step_user env errors calls (some u)).2.2 ≠ FlowResult.create_entry t d := by
  have hname := is_name_available_eq_false env.slugify env.existingTitles u.name h
  simp only [async_step_user, hname, Bool.false_and, Bool.not_false, if_true,
    Bool.false_eq_true, if_false]
  refine ⟨?_, by trivial, by simp⟩
  split
  · exact mem_setError_of_ne _ _ _ _ _ (by decide) (mem_setError_self _ _ _)
  · exact mem_setError_self _ _ _

/-- Witness for C5: the theorem applied to a submission named "Home" against
an existing entry titled "Home", the collision hypothesis discharged. -/
theorem C5_name_exists_witness :
    ("name", "name_exists") ∈ (async_step_user sampleEnv [] 0 (some ⟨"Home", 60, 25⟩)).1 ∧
    (async_step_user sampleEnv [] 0 (some ⟨"Home", 60, 25⟩)).2.2 =
      FlowResult.show_form "Home" 60 25
        (async_step_user sampleEnv [] 0 (some ⟨"Home", 60, 25⟩)).1 ∧
    ∀ t d, (async_step_user sampleEnv [] 0 (some ⟨"Home", 60, 25⟩)).2.2 ≠
      FlowResult.create_entry t d :=
  C5_name_exists sampleEnv [] 0 ⟨"Home", 60, 25⟩ ⟨"Home", by decide, rfl⟩

/-- Claim C6: when the provider call raises a client or server error during a
submission, coordinate validation returns false after exactly one network
call (the counter advances by one, no retry), the `invalid_location` error is
recorded under the base key, and no configuration entry is created. -/
theorem C6_invalid_location (env : FlowEnv) (errors : Errors) (calls : ℕ)
    (u : UserInput) (e : FmiError) (h : env.oracle calls = .error e) :
    async_is_valid_location env.oracle calls = (false, calls + 1) ∧
    ("base", "invalid_location") ∈ (async_step_user env errors calls (some u)).1 ∧
    (async_step_user env errors calls (some u)).2.1 = calls + 1 ∧
    ∀ t d, (async_step_user env errors calls (some u)).2.2 ≠ FlowResult.create_entry t d := by
  have hval : async_is_valid_location env.oracle calls = (false, calls + 1) := by
    simp [async_is_valid_location, h]
  refine ⟨hval, ?_, ?_, ?_⟩
  · simp only [async_step_user, hval, Bool.and_false, Bool.not_false, if_true,
      Bool.false_eq_true, if_false]
    exact mem_setError_self _ _ _
  · simp [async_step_user, hval]
  · simp [async_step_user, hval]

/-- Witness for C6: the theorem applied to a provider failing with a client
error (status 400), the failure hypothesis discharged. -/
theorem C6_invalid_location_witness :
    async_is_valid_location sampleEnv.oracle 0 = (false, 0 + 1) ∧
    ("base", "invalid_location") ∈ (async_step_user sampleEnv [] 0 (some ⟨"Cabin", 61, 24⟩)).1 ∧
    (async_step_user sampleEnv [] 0 (some ⟨"Cabin", 61, 24⟩)).2.1 = 0 + 1 ∧
    ∀ t d, (async_step_user sampleEnv [] 0 (some ⟨"Cabin", 61, 24⟩)).2.2 ≠
      FlowResult.create_entry t d :=
  C6_invalid_location sampleEnv [] 0 ⟨"Cabin", 61, 24⟩ (.clientError 400 "Bad Request") rfl

/-- One flow step never removes a key from the errors dictionary. -/
theorem async_step_user_errors_mono (env : FlowEnv) (errors : Errors) (calls : ℕ)
    (input : Option UserInput) (k : String) (h : hasErrorKey errors k = true) :
    hasErrorKey (async_step_user env errors calls input).1 k = true := by
  cases input with
  | none => simpa [async_step_user] using h
  | some u =>
      simp only [async_step_user]
      split
      · simpa using h
      · split <;> split <;>
          simp [hasErrorKey_setError_mono, h, hasErrorKey_setError_mono _ _ _ _ h]

/-- A rendered form always carries exactly the step's updated errors
dictionary. -/
theorem async_step_user_form_errors (env : FlowEnv) (errors : Errors) (calls : ℕ)
    (input : Option UserInput) (n : String) (la lo : ℚ) (errs : Errors)
    (h : (async_step_user env errors calls input).2.2 = FlowResult.show_form n la lo errs) :
    errs = (async_step_user env errors calls input).1 := by
  cases input with
  | none =>
      simp only [async_step_user] at h ⊢
      cases h
      rfl
  | some u =>
      simp only [async_step_user] at h ⊢
      by_cases hc : (is_name_available env.slugify env.existingTitles u.name &&
          (async_is_valid_location env.oracle calls).1) = true
      · rw [if_pos hc] at h ⊢
        simp at h
      · rw [if_neg hc] at h ⊢
        injection h with h1 h2 h3 h4
        exact h4.symm

/-- Claim C10: within one flow instance the errors dictionary only grows —
once a key is present, every form rendered by any later sequence of steps
still carries that key, whether or not later submissions pass that
validation. -/
theorem C10_errors_monotone (env : FlowEnv) (errors : Errors) (calls : ℕ)
    (inputs : List (Option UserInput)) (k : String)
    (h : hasErrorKey errors k = true) :
    ∀ r ∈ (run_flow env errors calls inputs).1,
      ∀ n la lo errs, r = FlowResult.show_form n la lo errs →
        hasErrorKey errs k = true := by
  induction inputs generalizing errors calls h with
  | nil =>
      intro r hr
      simp [run_flow] at hr
  | cons input rest ih =>
      intro r hr n la lo errs hform
      simp only [run_flow, List.mem_cons] at hr
      rcases hr with hr | hr
      · have hstep : (async_step_user env errors calls input).2.2 =
            FlowResult.show_form n la lo errs := by
          rw [← hr]; exact hform
        have herr := async_step_user_form_errors env errors calls input n la lo errs hstep
        rw [herr]
        exact async_step_user_errors_mono env errors calls input k h
      · exact ih _ _ (async_step_user_errors_mono env errors calls input k h)
          r hr n la lo errs hform

/-- Witness for C10: the theorem applied to a flow whose errors dictionary
already holds `name_exists` and which then renders the initial form again;
the presence, membership and form-shape hypotheses are discharged on the
concrete run. -/
theorem C10_errors_monotone_witness :
    hasErrorKey [("name", "name_exists")] "name" = true :=
  C10_errors_monotone sampleEnv [("name", "name_exists")] 0 [none] "name" (by decide)
    (FlowResult.show_form "FMI" 60 25 [("name", "name_exists")]) (by decide)
    "FMI" 60 25 [("name", "name_exists")] rfl
